import Mathlib

/-!
Shallow embedding of `src/app.py` (AI-Project-Generator).

The program is a single-page app that, per user submission, fetches two
pieces of context over HTTP (a web-search summary and a paper list),
interpolates them into a fixed prompt template, sends the prompt to a
hosted LLM, and renders the returned markdown.  External collaborators
(search API, paper-index HTTP endpoint, LLM endpoint) are modelled as
oracle functions passed in as parameters; user-visible `st.error`
emissions are modelled as an explicit list of message strings returned
alongside each result.
-/

namespace App

/-- The nested `paper` object of one entry of the paper-index JSON
response: `title` and `url_abs` fields, each possibly absent
(`paper.get('title', 'No Title')`, `paper.get('url_abs', 'No URL')`,
app.py line 66). -/
structure PaperInfo where
  title : Option String
  url_abs : Option String
deriving DecidableEq, Repr

/-- One entry of the `results` array; its `paper` field may be absent
(`paper.get('paper', {})`, app.py line 66). -/
structure PaperEntry where
  paper : Option PaperInfo
deriving DecidableEq, Repr

/-- The parsed JSON body of the paper-index response; the `results`
field may be absent (`data.get("results", [])`, app.py line 60). -/
structure ApiData where
  results : Option (List PaperEntry)
deriving DecidableEq, Repr

/-- Outcome of one `requests.get` call (app.py line 56): either a
network failure / timeout (a `requests.RequestException`, carrying the
exception text), or an HTTP response with a status code and a body.
`body = none` models a body that fails to parse as JSON
(`response.json()`, app.py line 59, raising `requests.exceptions.JSONDecodeError`,
a `RequestException` subclass in the pinned requests versions). -/
inductive HttpResult where
  | failure (msg : String)
  | response (status : Nat) (body : Option ApiData)
deriving DecidableEq, Repr

/-- Sentinel returned on any caught fetch failure (app.py line 71). -/
def failedFetchMsg : String := "Failed to fetch papers. Please try again later."

/-- Sentinel returned on a parsed response with an empty results list
(app.py line 63). -/
def noPapersMsg : String := "No papers found for the given topic."

/-- URL built by `fetch_paperswithcode_data` (app.py line 55). -/
def paperswithcode_url (topic : String) : String :=
  "https://paperswithcode.com/api/v1/search/?q=" ++ topic

/-- Formatting of one result entry (app.py line 66):
f-string dash + title, newline, two spaces + url, with default strings
for absent fields. -/
def format_paper (entry : PaperEntry) : String :=
  let p := entry.paper.getD { title := none, url_abs := none }
  "- " ++ p.title.getD "No Title" ++ "\n  " ++ p.url_abs.getD "No URL"

/-- `ProjectIdeaGenerator.fetch_paperswithcode_data` (app.py lines 50-71),
as a function of the HTTP oracle (url to outcome).  `response.raise_for_status()`
(line 57) raises `requests.HTTPError` exactly when 400 <= status < 600;
every other deliverable status (http.client accepts codes up to 999)
passes through to the body.  Every `RequestException` is caught and
mapped to the failure sentinel plus an `st.error` message (modelled as
the second component); the returned pair is (function return value,
user-visible error messages).  `HttpResult` restricts bodies to the
non-raising shapes — absent JSON (a caught `JSONDecodeError`) or a
well-shaped object; bodies whose JSON parses to an unexpected shape
raise uncaught errors and are modelled by
`fetch_paperswithcode_data_py` below. -/
def fetch_paperswithcode_data (http : String → HttpResult) (topic : String) :
    String × List String :=
  match http (paperswithcode_url topic) with
  | HttpResult.failure e => (failedFetchMsg, ["Error fetching papers: " ++ e])
  | HttpResult.response status body =>
      if 400 ≤ status ∧ status < 600 then
        (failedFetchMsg, ["Error fetching papers: HTTP status " ++ Nat.repr status])
      else
        match body with
        | none => (failedFetchMsg, ["Error fetching papers: invalid JSON"])
        | some data =>
            let papers := data.results.getD []
            if papers.isEmpty then (noPapersMsg, [])
            else (String.intercalate "\n" ((papers.take 15).map format_paper), [])

/-- Parse outcome of `response.json()` (app.py line 59) in the refined
model: the body may fail to parse as JSON at all (`JSONDecodeError`, a
`RequestException` subclass in the pinned requests versions, hence
caught); or parse to JSON of an unexpected shape — a non-object top
level, or `"paper": null` entries — on which the chained
`data.get` / `paper.get` calls raise `AttributeError` / `TypeError`
(carried as `msg`), which are not `RequestException` and propagate; or
parse to the expected object shape. -/
inductive JsonOutcome where
  | parseFail
  | wrongShape (msg : String)
  | parsed (data : ApiData)
deriving DecidableEq, Repr

/-- Outcome of one `requests.get` call in the refined model: a network
failure, or a response with a status code and a `JsonOutcome` body. -/
inductive HttpResultPy where
  | failure (msg : String)
  | response (status : Nat) (body : JsonOutcome)
deriving DecidableEq, Repr

/-- `ProjectIdeaGenerator.fetch_paperswithcode_data` (app.py lines 50-71)
over the refined body model, with uncaught exceptions made explicit:
`Except.error` is an exception propagating to the caller (only
`requests.RequestException` is caught, app.py line 69), `Except.ok` is
a normal return paired with the `st.error` messages shown.
`raise_for_status` raises exactly for 400 <= status < 600; a body whose
JSON has an unexpected shape raises an uncaught error. -/
def fetch_paperswithcode_data_py (http : String → HttpResultPy) (topic : String) :
    Except String (String × List String) :=
  match http (paperswithcode_url topic) with
  | HttpResultPy.failure e =>
      Except.ok (failedFetchMsg, ["Error fetching papers: " ++ e])
  | HttpResultPy.response status body =>
      if 400 ≤ status ∧ status < 600 then
        Except.ok (failedFetchMsg, ["Error fetching papers: HTTP status " ++ Nat.repr status])
      else
        match body with
        | JsonOutcome.parseFail =>
            Except.ok (failedFetchMsg, ["Error fetching papers: invalid JSON"])
        | JsonOutcome.wrongShape m => Except.error m
        | JsonOutcome.parsed data =>
            let papers := data.results.getD []
            if papers.isEmpty then Except.ok (noPapersMsg, [])
            else Except.ok
              (String.intercalate "\n" ((papers.take 15).map format_paper), [])

/-- `ProjectIdeaGenerator.fetch_related_info` (app.py lines 38-48), as a
function of the search oracle (api key, query to result or exception).
Any exception is caught and mapped to the empty string plus an
`st.error` message. -/
def fetch_related_info (search : String → String → Except String String)
    (topic serpapi_key : String) : String × List String :=
  match search serpapi_key ("project ideas for " ++ topic) with
  | Except.ok res => (res, [])
  | Except.error e => ("", ["Error fetching related information: " ++ e])

/-- Text of the prompt template (app.py lines 85-128) before the
`topic` placeholder: starts at the newline after the opening
triple-quote; every line of the template carries 12 leading spaces. -/
def promptSeg0 : String :=
  "\n            You are an AI-powered freelance client simulation generator.\n            \n            🎯 Objective: Generate unique project briefs for the topic \""

/-- Template text between the `topic` and `complexity` placeholders. -/
def promptSeg1 : String :=
  "\"\n            from the given context.\n            ## Generation Parameters\n            - Complexity Level: "

/-- Template text between the `complexity` and `num_projects` placeholders. -/
def promptSeg2 : String :=
  "\n            - Number of Projects: "

/-- Template text between the `num_projects` and `serpapi_data` placeholders. -/
def promptSeg3 : String :=
  "\n            \n            <context>\n            1. **Web Research Context**: "

/-- Template text between the `serpapi_data` and `papers_data` placeholders. -/
def promptSeg4 : String :=
  "\n            2. **Academic Research Papers**: "

/-- Template text after the `papers_data` placeholder, up to the closing
triple-quote (which sits after 12 spaces on the final line). -/
def promptSeg5 : String :=
  "\n            </context>\n            ## Project Brief Requirements\n            \n            ### 1. Descriptive Title\n            - Format: Markdown Heading (H2)\n            - Capture project essence concisely\n            \n            ### 2. Problem Statement\n            - Written in authentic client voice\n            - Include:\n            * Specific need\n            * Underlying motivation\n            * Clear expectations\n            \n            ### 3. Key Deliverables\n            - Explicitly list expected outcomes\n            - Ensure clarity and measurability\n            \n            ### 4. Project Scope and Constraints\n            - Timeline specifications\n            - Budget limitations\n            - Platform or technology preferences\n            \n            ### 5. Recommended Tools/Techniques\n            - Client-suggested methodologies\n            - Preferred technological approach\n            \n            ## Output: \n            - output in proper heading , subheading ,points.Like project heading should be in different fontsize and of same size of each project. \n            - ouput in only in markdown \n            - Add A divider after every project\n            "

/-- The composed prompt: the `PromptTemplate` of `generate_ideas`
(app.py lines 77-129) applied to its five input variables, exactly as
Python f-string formatting substitutes them simultaneously into the
template (the integer `num_projects` is rendered in decimal). -/
def idea_prompt (topic complexity : String) (num_projects : Nat)
    (serpapi_data papers_data : String) : String :=
  promptSeg0 ++ topic ++ promptSeg1 ++ complexity ++ promptSeg2 ++
    Nat.repr num_projects ++ promptSeg3 ++ serpapi_data ++ promptSeg4 ++
    papers_data ++ promptSeg5

/-- Construction parameters of the `ChatGroq` client (app.py lines 29-36).
The temperature is an exact decimal in the source text; it is modelled
as a rational, no floating-point arithmetic is ever performed on it. -/
structure ChatGroqConfig where
  model : String
  temperature : ℚ
  max_retries : Nat
  api_key : String
deriving DecidableEq, Repr

/-- `ProjectIdeaGenerator._init_llm` (app.py lines 29-36). -/
def _init_llm (groq_api_key : String) : ChatGroqConfig :=
  { model := "llama-3.1-8b-instant"
    temperature := (0.7 : ℚ)
    max_retries := 2
    api_key := groq_api_key }

/-- `ProjectIdeaGenerator.generate_ideas` (app.py lines 73-142), as a
function of the LLM oracle (prompt to message content or exception).
On success the raw `.content` is returned unmodified; any exception is
caught and mapped to the absent value plus an `st.error` message. -/
def generate_ideas (llm : String → Except String String)
    (topic complexity : String) (num_projects : Nat)
    (serpapi_data papers_data : String) : Option String × List String :=
  match llm (idea_prompt topic complexity num_projects serpapi_data papers_data) with
  | Except.ok content => (some content, [])
  | Except.error e => (none, ["Error generating ideas: " ++ e])

/-- Python truthiness of an optional string: `not x` is true when the
variable is `None` or the empty string. -/
def pythonTruthy (s : Option String) : Bool :=
  match s with
  | none => false
  | some v => !v.isEmpty

/-- The state a successfully constructed `ProjectIdeaGenerator` holds
(app.py lines 13-23): the two keys and the LLM client configuration. -/
structure ProjectIdeaGenerator where
  serpapi_key : String
  groq_api_key : String
  llm : ChatGroqConfig
deriving DecidableEq, Repr

/-- `ProjectIdeaGenerator.__init__` (app.py lines 14-23), as a function
of the environment (`os.getenv`).  If either key is absent or empty a
`ValueError` is raised (modelled as `Except.error` with the exception
text); no collaborator is consulted before that check. -/
def ProjectIdeaGenerator.init (env : String → Option String) :
    Except String ProjectIdeaGenerator :=
  let serpapi_key := env "SERPAPI_API_KEY"
  let groq_api_key := env "GROQ_API_KEY"
  if !pythonTruthy serpapi_key || !pythonTruthy groq_api_key then
    Except.error "Missing required API keys in .env file"
  else
    Except.ok
      { serpapi_key := serpapi_key.getD ""
        groq_api_key := groq_api_key.getD ""
        llm := _init_llm (groq_api_key.getD "") }

/-- The options list of the complexity selectbox (app.py line 270). -/
def complexity_options : List String :=
  ["Novice Protocol", "Intermediate Sync", "Advanced Nexus"]

/-- Modelled from the spec: the behaviour of the framework slider widget
(`st.slider`, app.py lines 262-265) is not in src; the UI can only
produce an integer inside the displayed range, modelled by clamping the
chosen value into [lo, hi]. -/
def slider (lo hi choice : Nat) : Nat := max lo (min hi choice)

/-- Modelled from the spec: the behaviour of the framework selectbox
widget (`st.selectbox`, app.py lines 268-273) is not in src; the UI can
only produce one of the listed options, modelled by indexing the
options list with an in-range index. -/
def selectbox (options : List String) (choice : Fin options.length) : String :=
  options.get choice

/-- The per-submission request data named in the data model: topic,
complexity label and requested idea count as read from the widgets. -/
structure GenerationRequest where
  topic : String
  complexity : String
  count : Nat
deriving DecidableEq, Repr

/-- A request as constructed from one user submission in `main`
(app.py lines 252-273): topic from the text area, count from the
`st.slider(1, 10, 5)` widget, complexity from the
`st.selectbox(complexity_options, index=1)` widget. -/
def buildRequest (topic : String) (sliderChoice : Nat)
    (complexityChoice : Fin complexity_options.length) : GenerationRequest :=
  { topic := topic
    complexity := selectbox complexity_options complexityChoice
    count := slider 1 10 sliderChoice }

/-- The user-supplied widget state one `main` run reads (app.py lines
252-276): topic text, slider value, selectbox label, button state. -/
structure MainInput where
  topic : String
  number_of_projects : Nat
  project_complexity : String
  generate_button : Bool

/-- The three external collaborators `main` reaches through the
generator: search API, paper-index HTTP endpoint, LLM endpoint. -/
structure Collaborators where
  search : String → String → Except String String
  httpGet : String → HttpResult
  llm : String → Except String String

/-- What one `main` run shows the user (beyond static markup): the
`st.error` messages emitted, and the generated markdown if rendered. -/
structure RenderState where
  errors : List String
  rendered : Option String
deriving DecidableEq, Repr

/-- `main` (app.py lines 144-362), restricted to its dynamic behaviour.
The whole body sits in a `try` block whose handler is `except Exception:
pass` (lines 353-354), so a `ValueError` from the constructor shows
nothing.  With a constructed generator, a non-empty topic and a pressed
button, the pipeline runs: web fetch, papers fetch, generation; the
result is rendered only when truthy (`if result:`, line 296), so an
absent result and an empty-string result both render nothing.
The `st.cache_data` memoization of the two fetches is modelled
separately (`cachedCall` below); on a fresh run with a cold cache the
memoized call returns exactly the direct call's value
(`cachedCall_cold_eq`). -/
def main (env : String → Option String) (c : Collaborators) (ui : MainInput) :
    RenderState :=
  match ProjectIdeaGenerator.init env with
  | Except.error _ => { errors := [], rendered := none }
  | Except.ok gen =>
      if ui.topic.isEmpty then { errors := [], rendered := none }
      else if ui.generate_button then
        let web := fetch_related_info c.search ui.topic gen.serpapi_key
        let pap := fetch_paperswithcode_data c.httpGet ui.topic
        let res := generate_ideas c.llm ui.topic ui.project_complexity
          ui.number_of_projects web.1 pap.1
        { errors := web.2 ++ pap.2 ++ res.2
          rendered :=
            match res.1 with
            | some s => if s.isEmpty then none else some s
            | none => none }
      else { errors := [], rendered := none }

/-- Modelled from the spec: one entry of the `st.cache_data(ttl=3600)`
memo table (app.py lines 39 and 51) — the decorator itself is framework
code not under src.  An entry stores the argument tuple it is keyed by,
the cached return value, and the time it was stored. -/
structure CacheEntry (κ α : Type) where
  key : κ
  val : α
  stored : Nat
deriving DecidableEq, Repr

/-- Modelled from the spec: the memo table of one cached function. -/
structure CacheState (κ α : Type) where
  entries : List (CacheEntry κ α)
deriving DecidableEq, Repr

/-- Modelled from the spec: cache lookup — an entry answers for `key` at
time `now` when its key equals `key` exactly (the decorator hashes the
argument tuple; no normalization) and it is at most `ttl` seconds old. -/
def CacheState.lookup [DecidableEq κ] (c : CacheState κ α) (ttl : Nat)
    (key : κ) (now : Nat) : Option α :=
  match c.entries.find? (fun e => decide (e.key = key) && decide (now ≤ e.stored + ttl)) with
  | some e => some e.val
  | none => none

/-- Modelled from the spec: one call through the `st.cache_data(ttl=3600)`
decorator: a valid cached entry is returned as is; otherwise the
underlying function runs (it may depend on the time through the external
services) and its value is stored. -/
def cachedCall [DecidableEq κ] (ttl : Nat) (f : κ → Nat → α)
    (c : CacheState κ α) (key : κ) (now : Nat) : α × CacheState κ α :=
  match c.lookup ttl key now with
  | some v => (v, c)
  | none =>
      let v := f key now
      (v, ⟨{ key := key, val := v, stored := now } :: c.entries⟩)

/-- The combined context the two cached fetches deliver for a topic. -/
structure ResearchContext where
  webSummary : String
  papers : String
deriving DecidableEq, Repr

/-- The context-fetch step of `main` (app.py lines 285-286) with the
`st.cache_data` memoization made explicit: the web fetch is keyed by its
argument tuple (topic, serpapi key), the papers fetch by its only
argument, the topic.  The time-indexed oracles model the external
services, whose answers may change over time.  Returns the context and
the two updated memo tables. -/
def fetchContext (search : Nat → String → String → Except String String)
    (http : Nat → String → HttpResult) (serpapi_key : String)
    (cw : CacheState (String × String) (String × List String))
    (cp : CacheState String (String × List String))
    (topic : String) (now : Nat) :
    ResearchContext × CacheState (String × String) (String × List String) ×
      CacheState String (String × List String) :=
  let w := cachedCall 3600 (fun k t => fetch_related_info (search t) k.1 k.2)
    cw (topic, serpapi_key) now
  let p := cachedCall 3600 (fun k t => fetch_paperswithcode_data (http t) k)
    cp topic now
  (⟨w.1.1, p.1.1⟩, w.2, p.2)

/-- A memoized call on a cold (empty) cache returns exactly the direct
call's value. -/
theorem cachedCall_cold_eq [DecidableEq κ] (ttl : Nat) (f : κ → Nat → α)
    (key : κ) (now : Nat) :
    (cachedCall ttl f ⟨[]⟩ key now).1 = f key now := by
  simp [cachedCall, CacheState.lookup]

/-- A memoized call that misses runs the function and stores its value. -/
theorem cachedCall_of_miss [DecidableEq κ] (ttl : Nat) (f : κ → Nat → α)
    (c : CacheState κ α) (key : κ) (now : Nat)
    (h : c.lookup ttl key now = none) :
    cachedCall ttl f c key now =
      (f key now, ⟨{ key := key, val := f key now, stored := now } :: c.entries⟩) := by
  simp [cachedCall, h]

/-- After a miss at time t0, a repeat call with the same key at any time
up to t0 + ttl returns the value stored at t0. -/
theorem cachedCall_within_window [DecidableEq κ] (ttl : Nat) (f : κ → Nat → α)
    (c : CacheState κ α) (key : κ) (t0 t1 : Nat)
    (hmiss : c.lookup ttl key t0 = none) (hwin : t1 ≤ t0 + ttl) :
    (cachedCall ttl f (cachedCall ttl f c key t0).2 key t1).1 =
      (cachedCall ttl f c key t0).1 := by
  rw [cachedCall_of_miss ttl f c key t0 hmiss]
  have hfind :
      (CacheState.mk ({ key := key, val := f key t0, stored := t0 } ::
          c.entries) : CacheState κ α).lookup ttl key t1 = some (f key t0) := by
    unfold CacheState.lookup
    rw [List.find?_cons_of_pos]
    simp [hwin]
  simp [cachedCall, hfind]

/-- Storing an entry for one key leaves lookups of every other key
unchanged: the cache key is the exact argument tuple. -/
theorem cachedCall_other_key [DecidableEq κ] (ttl : Nat) (f : κ → Nat → α)
    (c : CacheState κ α) (key key2 : κ) (t0 t : Nat)
    (hmiss : c.lookup ttl key t0 = none) (hne : key2 ≠ key) :
    ((cachedCall ttl f c key t0).2).lookup ttl key2 t = c.lookup ttl key2 t := by
  rw [cachedCall_of_miss ttl f c key t0 hmiss]
  unfold CacheState.lookup
  rw [List.find?_cons_of_neg]
  simp
  intro h
  exact absurd h.symm hne

/-- Containment of a piece verbatim inside a string. -/
def containsPiece (s piece : String) : Prop :=
  ∃ a b : String, s = a ++ (piece ++ b)

/-- The accumulator of `String.intercalate.go` is a prefix of its result. -/
theorem intercalate_go_prefix (s : String) (as : List String) :
    ∀ acc : String, ∃ t, String.intercalate.go acc s as = acc ++ t := by
  induction as with
  | nil =>
      intro acc
      exact ⟨"", by simp [String.intercalate.go]⟩
  | cons a as ih =>
      intro acc
      obtain ⟨t, ht⟩ := ih (acc ++ s ++ a)
      refine ⟨s ++ (a ++ t), ?_⟩
      rw [show String.intercalate.go acc s (a :: as) =
        String.intercalate.go (acc ++ s ++ a) s as from rfl, ht]
      simp [String.append_assoc]

/-- Appending anything to a non-empty string stays non-empty. -/
theorem append_ne_empty_of_left_ne (a b : String) (ha : a ≠ "") : a ++ b ≠ "" := by
  intro hc
  apply ha
  have hd := congrArg String.data hc
  simp at hd
  exact String.ext hd.1

/-- Every formatted paper entry starts with a dash, hence is non-empty. -/
theorem format_paper_ne_empty (e : PaperEntry) : format_paper e ≠ "" := by
  unfold format_paper
  rw [String.append_assoc, String.append_assoc]
  exact append_ne_empty_of_left_ne _ _ (by decide)

/-- Joining a non-empty list of formatted entries is non-empty. -/
theorem intercalate_format_ne_empty (l : List PaperEntry) (h : l ≠ []) :
    String.intercalate "\n" (l.map format_paper) ≠ "" := by
  cases l with
  | nil => exact absurd rfl h
  | cons p rest =>
      obtain ⟨t, ht⟩ :=
        intercalate_go_prefix "\n" (rest.map format_paper) (format_paper p)
      have hx : String.intercalate "\n" ((p :: rest).map format_paper) =
          format_paper p ++ t := by
        simpa [String.intercalate] using ht
      rw [hx]
      exact append_ne_empty_of_left_ne _ _ (format_paper_ne_empty p)

/-- An HTTP oracle answering status 300 with a well-formed one-result
body: a non-2xx response on which the fetch does not return the
failure sentinel, since `raise_for_status` only raises at 400 and up. -/
def http300 : String → HttpResult :=
  fun _ => HttpResult.response 300 (some ⟨some [⟨some ⟨some "T", some "U"⟩⟩]⟩)

/-- Claim C2, counterexample: status 300 is not 2xx, yet the fetch
returns the formatted result list, not the failure sentinel — the code
treats every status below 400 as success. -/
theorem fetch_papers_non2xx_counterexample :
    ¬ (200 ≤ 300 ∧ 300 < 300) ∧
    (fetch_paperswithcode_data http300 "ai").1 = "- T\n  U" ∧
    (fetch_paperswithcode_data http300 "ai").1 ≠ failedFetchMsg := by
  decide

/-- Claim C2 (amended): the sentinel is returned exactly on the caught
`RequestException` cases — network failure, HTTP status in [400, 599]
(the range `raise_for_status` raises for), or a body that is not valid
JSON; a status outside [400, 599], 2xx or not, passes through to the
body, on which a well-shaped JSON object takes the normal parsing path
(bridged to the simple embedding) while JSON of an unexpected shape
raises an error that propagates uncaught to the caller. -/
theorem fetch_papers_exception_contract (http : String → HttpResultPy) (topic : String) :
    (∀ e, http (paperswithcode_url topic) = HttpResultPy.failure e →
        fetch_paperswithcode_data_py http topic =
          Except.ok (failedFetchMsg, ["Error fetching papers: " ++ e])) ∧
    (∀ s b, http (paperswithcode_url topic) = HttpResultPy.response s b →
        400 ≤ s → s < 600 →
        fetch_paperswithcode_data_py http topic =
          Except.ok (failedFetchMsg,
            ["Error fetching papers: HTTP status " ++ Nat.repr s])) ∧
    (∀ s, http (paperswithcode_url topic) =
          HttpResultPy.response s JsonOutcome.parseFail →
        ¬ (400 ≤ s ∧ s < 600) →
        fetch_paperswithcode_data_py http topic =
          Except.ok (failedFetchMsg, ["Error fetching papers: invalid JSON"])) ∧
    (∀ s m, http (paperswithcode_url topic) =
          HttpResultPy.response s (JsonOutcome.wrongShape m) →
        ¬ (400 ≤ s ∧ s < 600) →
        fetch_paperswithcode_data_py http topic = Except.error m) ∧
    (∀ s data, http (paperswithcode_url topic) =
          HttpResultPy.response s (JsonOutcome.parsed data) →
        ¬ (400 ≤ s ∧ s < 600) →
        fetch_paperswithcode_data_py http topic =
          Except.ok (fetch_paperswithcode_data
            (fun _ => HttpResult.response s (some data)) topic)) := by
  refine ⟨?_, ?_, ?_, ?_, ?_⟩
  · intro e he
    simp [fetch_paperswithcode_data_py, he]
  · intro s b hb h4 h6
    have hs : 400 ≤ s ∧ s < 600 := ⟨h4, h6⟩
    simp [fetch_paperswithcode_data_py, hb, hs]
  · intro s hb hs
    simp [fetch_paperswithcode_data_py, hb, hs]
  · intro s m hb hs
    simp [fetch_paperswithcode_data_py, hb, hs]
  · intro s data hb hs
    by_cases hp : (data.results.getD []).isEmpty <;>
      simp [fetch_paperswithcode_data_py, fetch_paperswithcode_data, hb, hs, hp]

/-- An HTTP oracle answering 200 with a body whose JSON has an
unexpected shape (e.g. a non-object top level). -/
def httpWrongShape : String → HttpResultPy :=
  fun _ => HttpResultPy.response 200 (JsonOutcome.wrongShape "AttributeError")

/-- An HTTP oracle answering the deliverable status 600 with a
well-formed one-result body. -/
def http600 : String → HttpResultPy :=
  fun _ => HttpResultPy.response 600
    (JsonOutcome.parsed ⟨some [⟨some ⟨some "T", some "U"⟩⟩]⟩)

/-- Claim C2, witness: a 2xx body of the wrong JSON shape raises
uncaught to the caller, and a status-600 response with a well-formed
body takes the success path and returns the formatted list. -/
theorem fetch_papers_exception_contract_witness :
    (¬ (400 ≤ 200 ∧ 200 < 600) ∧ ¬ (400 ≤ 600 ∧ 600 < 600)) ∧
    fetch_paperswithcode_data_py httpWrongShape "ai" = Except.error "AttributeError" ∧
    fetch_paperswithcode_data_py http600 "ai" = Except.ok ("- T\n  U", []) :=
  ⟨⟨by decide, by decide⟩,
    (fetch_papers_exception_contract httpWrongShape "ai").2.2.2.1 200 "AttributeError"
      rfl (by decide),
    (fetch_papers_exception_contract http600 "ai").2.2.2.2 600
      ⟨some [⟨some ⟨some "T", some "U"⟩⟩]⟩ rfl (by decide)⟩

/-- Claim C3: on a 2xx response with parsed JSON, an empty results list
yields exactly the no-papers sentinel; a non-empty results list yields
exactly the first 15 entries, formatted in response order, with the
default strings substituted for absent title or url fields. -/
theorem fetch_papers_2xx_parsing (http : String → HttpResult) (topic : String)
    (s : Nat) (data : ApiData)
    (hresp : http (paperswithcode_url topic) = HttpResult.response s (some data))
    (h2a : 200 ≤ s) (h2b : s < 300) :
    ((data.results.getD []) = [] →
        fetch_paperswithcode_data http topic = (noPapersMsg, [])) ∧
    ((data.results.getD []) ≠ [] →
        (fetch_paperswithcode_data http topic).1 =
          String.intercalate "\n" (((data.results.getD []).take 15).map format_paper)) ∧
    format_paper ⟨none⟩ = "- No Title\n  No URL" ∧
    (∀ t u, format_paper ⟨some ⟨some t, some u⟩⟩ = "- " ++ t ++ "\n  " ++ u) := by
  have hstatus : ¬ (400 ≤ s ∧ s < 600) := by omega
  refine ⟨?_, ?_, by decide, fun t u => rfl⟩
  · intro hempty
    simp [fetch_paperswithcode_data, hresp, hstatus, hempty]
  · intro hne
    have hisE : ¬ (data.results.getD []).isEmpty := by
      simpa [List.isEmpty_iff] using hne
    simp [fetch_paperswithcode_data, hresp, hstatus, hisE]

/-- A 20-result response body with distinct titles and urls. -/
def data20 : ApiData :=
  ⟨some ((List.range 20).map
    (fun i => ⟨some ⟨some ("T" ++ Nat.repr i), some ("U" ++ Nat.repr i)⟩⟩))⟩

/-- An HTTP oracle answering 200 with the 20-result body. -/
def http20 : String → HttpResult := fun _ => HttpResult.response 200 (some data20)

/-- Claim C3, witness: a concrete 200 response with 20 results yields
exactly the first 15 formatted entries. -/
theorem fetch_papers_2xx_parsing_witness :
    ((200 : Nat) ≤ 200 ∧ (200 : Nat) < 300 ∧ (data20.results.getD []) ≠ []) ∧
    (fetch_paperswithcode_data http20 "ai").1 =
      String.intercalate "\n" (((data20.results.getD []).take 15).map format_paper) :=
  ⟨by decide, (fetch_papers_2xx_parsing http20 "ai" 200 data20 rfl (by decide)
    (by decide)).2.1 (by decide)⟩

/-- Claim C10: for every HTTP outcome the papers fetch is total and its
value is exactly one of the failure sentinel, the no-papers sentinel, or
the join of 1 to 15 formatted entries; it is never the empty string. -/
theorem fetch_papers_total_shape (http : String → HttpResult) (topic : String) :
    ((fetch_paperswithcode_data http topic).1 = failedFetchMsg ∨
      (fetch_paperswithcode_data http topic).1 = noPapersMsg ∨
      ∃ l : List PaperEntry, l ≠ [] ∧ l.length ≤ 15 ∧
        (fetch_paperswithcode_data http topic).1 =
          String.intercalate "\n" (l.map format_paper)) ∧
    (fetch_paperswithcode_data http topic).1 ≠ "" := by
  rcases hr : http (paperswithcode_url topic) with e | ⟨s, body⟩
  · have hv : (fetch_paperswithcode_data http topic).1 = failedFetchMsg := by
      simp [fetch_paperswithcode_data, hr]
    exact ⟨Or.inl hv, by rw [hv]; decide⟩
  · by_cases hs : 400 ≤ s ∧ s < 600
    · have hv : (fetch_paperswithcode_data http topic).1 = failedFetchMsg := by
        simp [fetch_paperswithcode_data, hr, hs]
      exact ⟨Or.inl hv, by rw [hv]; decide⟩
    · rcases body with _ | data
      · have hv : (fetch_paperswithcode_data http topic).1 = failedFetchMsg := by
          simp [fetch_paperswithcode_data, hr, hs]
        exact ⟨Or.inl hv, by rw [hv]; decide⟩
      · rcases hpap : data.results.getD [] with _ | ⟨p, rest⟩
        · have hv : (fetch_paperswithcode_data http topic).1 = noPapersMsg := by
            simp [fetch_paperswithcode_data, hr, hs, hpap]
          exact ⟨Or.inr (Or.inl hv), by rw [hv]; decide⟩
        · have hisE : ¬ (data.results.getD []).isEmpty := by
            simp [hpap]
          have hv : (fetch_paperswithcode_data http topic).1 =
              String.intercalate "\n" (((data.results.getD []).take 15).map format_paper) := by
            simp [fetch_paperswithcode_data, hr, hs, hisE]
          have htk : (data.results.getD []).take 15 ≠ [] := by
            rw [hpap]; simp
          refine ⟨Or.inr (Or.inr ⟨(data.results.getD []).take 15, htk, ?_, hv⟩), ?_⟩
          · exact List.length_take_le 15 _
          · rw [hv]
            exact intercalate_format_ne_empty _ htk

/-- Claim C4: the web-summary fetch consults the search collaborator
only at the query built as the fixed prefix plus the topic; on any
collaborator failure it returns the empty string together with a
user-visible warning, and it is total (never propagates the failure). -/
theorem fetch_related_info_contract
    (search : String → String → Except String String) (topic serpapi_key : String) :
    (∀ e, search serpapi_key ("project ideas for " ++ topic) = Except.error e →
        fetch_related_info search topic serpapi_key =
          ("", ["Error fetching related information: " ++ e])) ∧
    (∀ search2 : String → String → Except String String,
        search2 serpapi_key ("project ideas for " ++ topic) =
          search serpapi_key ("project ideas for " ++ topic) →
        fetch_related_info search2 topic serpapi_key =
          fetch_related_info search topic serpapi_key) := by
  constructor
  · intro e he
    simp [fetch_related_info, he]
  · intro search2 hagree
    simp [fetch_related_info, hagree]

/-- A search oracle that always fails. -/
def searchFail : String → String → Except String String :=
  fun _ _ => Except.error "quota"

/-- Claim C4, witness: a concrete search failure yields the empty
string and one recorded warning. -/
theorem fetch_related_info_contract_witness :
    searchFail "sk" ("project ideas for " ++ "AI") = Except.error "quota" ∧
    fetch_related_info searchFail "AI" "sk" =
      ("", ["Error fetching related information: quota"]) :=
  ⟨rfl, (fetch_related_info_contract searchFail "AI" "sk").1 "quota" rfl⟩

/-- Claim C5: for every valid request and any context pair, the
composed prompt contains the topic, the complexity label, the decimal
rendering of the requested count, and both context blobs verbatim. -/
theorem prompt_interpolation_contains (topic complexity : String) (n : Nat)
    (serpapi_data papers_data : String)
    (htopic : topic ≠ "")
    (hc : complexity ∈ ["Beginner", "Intermediate", "Advanced"])
    (hn1 : 1 ≤ n) (hn2 : n ≤ 10) :
    containsPiece (idea_prompt topic complexity n serpapi_data papers_data) topic ∧
    containsPiece (idea_prompt topic complexity n serpapi_data papers_data) complexity ∧
    containsPiece (idea_prompt topic complexity n serpapi_data papers_data) (Nat.repr n) ∧
    containsPiece (idea_prompt topic complexity n serpapi_data papers_data) serpapi_data ∧
    containsPiece (idea_prompt topic complexity n serpapi_data papers_data) papers_data := by
  refine ⟨⟨promptSeg0, promptSeg1 ++ complexity ++ promptSeg2 ++ Nat.repr n ++
      promptSeg3 ++ serpapi_data ++ promptSeg4 ++ papers_data ++ promptSeg5, ?_⟩,
    ⟨promptSeg0 ++ topic ++ promptSeg1, promptSeg2 ++ Nat.repr n ++ promptSeg3 ++
      serpapi_data ++ promptSeg4 ++ papers_data ++ promptSeg5, ?_⟩,
    ⟨promptSeg0 ++ topic ++ promptSeg1 ++ complexity ++ promptSeg2, promptSeg3 ++
      serpapi_data ++ promptSeg4 ++ papers_data ++ promptSeg5, ?_⟩,
    ⟨promptSeg0 ++ topic ++ promptSeg1 ++ complexity ++ promptSeg2 ++ Nat.repr n ++
      promptSeg3, promptSeg4 ++ papers_data ++ promptSeg5, ?_⟩,
    ⟨promptSeg0 ++ topic ++ promptSeg1 ++ complexity ++ promptSeg2 ++ Nat.repr n ++
      promptSeg3 ++ serpapi_data ++ promptSeg4, promptSeg5, ?_⟩⟩ <;>
  simp [idea_prompt, String.append_assoc]

/-- Claim C5, witness: the end-to-end example request (count 5,
complexity Intermediate) produces a prompt containing the literal 5 and
the literal complexity label. -/
theorem prompt_interpolation_contains_witness :
    (("AI" : String) ≠ "" ∧
      ("Intermediate" : String) ∈ ["Beginner", "Intermediate", "Advanced"] ∧
      (1 : Nat) ≤ 5 ∧ (5 : Nat) ≤ 10) ∧
    containsPiece (idea_prompt "AI" "Intermediate" 5 "W" "P") "Intermediate" ∧
    containsPiece (idea_prompt "AI" "Intermediate" 5 "W" "P") "5" := by
  have h := prompt_interpolation_contains "AI" "Intermediate" 5 "W" "P"
    (by decide) (by decide) (by decide) (by decide)
  exact ⟨⟨by decide, by decide, by decide, by decide⟩, h.2.1, h.2.2.1⟩

/-- Claim C6: the LLM client is configured with the fixed model
identifier, temperature 0.7 and at most 2 retries, and on a successful
call the raw message content is returned unmodified with no further
validation. -/
theorem llm_invocation_contract :
    (∀ key, (_init_llm key).model = "llama-3.1-8b-instant" ∧
      (_init_llm key).temperature = 7 / 10 ∧
      (_init_llm key).max_retries = 2) ∧
    (∀ (llm : String → Except String String) (topic complexity : String)
        (n : Nat) (sd pd content : String),
      llm (idea_prompt topic complexity n sd pd) = Except.ok content →
      generate_ideas llm topic complexity n sd pd = (some content, [])) := by
  constructor
  · intro key
    refine ⟨rfl, by norm_num [_init_llm], rfl⟩
  · intro llm topic complexity n sd pd content h
    simp [generate_ideas, h]

/-- An LLM oracle that always answers a fixed raw text. -/
def llmOkRaw : String → Except String String := fun _ => Except.ok "RAW"

/-- Claim C6, witness: a concrete successful call returns the raw
content unmodified. -/
theorem llm_invocation_contract_witness :
    llmOkRaw (idea_prompt "AI" "Intermediate" 5 "W" "P") = Except.ok "RAW" ∧
    generate_ideas llmOkRaw "AI" "Intermediate" 5 "W" "P" = (some "RAW", []) :=
  ⟨rfl, llm_invocation_contract.2 llmOkRaw "AI" "Intermediate" 5 "W" "P" "RAW" rfl⟩

/-- Claim C7: when the LLM collaborator raises, `generate_ideas`
returns the absent value (not an empty string) together with a reported
generation error, and `main` renders no result while showing that
error; the pipeline itself does not crash (totality of `main`). -/
theorem generation_failure_contract
    (env : String → Option String) (c : Collaborators) (ui : MainInput)
    (gen : ProjectIdeaGenerator) (e : String)
    (hinit : ProjectIdeaGenerator.init env = Except.ok gen)
    (hllm : ∀ p, c.llm p = Except.error e)
    (htopic : ui.topic ≠ "") (hbtn : ui.generate_button = true) :
    (∀ topic complexity n sd pd,
        generate_ideas c.llm topic complexity n sd pd =
          (none, ["Error generating ideas: " ++ e])) ∧
    (main env c ui).rendered = none ∧
    ("Error generating ideas: " ++ e) ∈ (main env c ui).errors := by
  have hgen : ∀ topic complexity n sd pd,
      generate_ideas c.llm topic complexity n sd pd =
        (none, ["Error generating ideas: " ++ e]) := by
    intro topic complexity n sd pd
    simp [generate_ideas, hllm]
  have hE : ui.topic.isEmpty = false := by
    rw [Bool.eq_false_iff]
    simpa [String.isEmpty_iff] using htopic
  refine ⟨hgen, ?_, ?_⟩ <;>
    simp [main, hinit, hE, hbtn, hgen]

/-- An environment with both keys set. -/
def envGood : String → Option String :=
  fun k => if k = "SERPAPI_API_KEY" then some "sk"
    else if k = "GROQ_API_KEY" then some "gk" else none

/-- The generator the good environment constructs. -/
def genGood : ProjectIdeaGenerator :=
  { serpapi_key := "sk", groq_api_key := "gk", llm := _init_llm "gk" }

/-- Collaborators whose LLM call always raises. -/
def collabLlmFail : Collaborators :=
  { search := fun _ _ => Except.ok "W"
    httpGet := fun _ => HttpResult.failure "net"
    llm := fun _ => Except.error "boom" }

/-- A submission with a non-empty topic and the button pressed. -/
def uiGood : MainInput :=
  { topic := "AI", number_of_projects := 5
    project_complexity := "Intermediate Sync", generate_button := true }

/-- Claim C7, witness: with a concrete failing LLM, nothing is rendered
and the generation error is among the shown messages. -/
theorem generation_failure_contract_witness :
    ProjectIdeaGenerator.init envGood = Except.ok genGood ∧
    (main envGood collabLlmFail uiGood).rendered = none ∧
    ("Error generating ideas: boom") ∈ (main envGood collabLlmFail uiGood).errors := by
  have h := generation_failure_contract envGood collabLlmFail uiGood genGood "boom"
    rfl (fun p => rfl) (by decide) rfl
  exact ⟨rfl, h.2.1, h.2.2⟩

/-- An environment whose search key is absent. -/
def envOnlyGroq : String → Option String :=
  fun k => if k = "GROQ_API_KEY" then some "gk" else none

/-- Claim C1 (observed code behaviour at the failing input): with the
search key absent the constructor does raise the configuration
`ValueError` before any collaborator can be consulted — `main` is
independent of every collaborator — but `main` catches it with a bare
`except Exception: pass`, so no message is shown to the user: the
absence is silently swallowed, contradicting the claim. -/
theorem missing_key_silently_swallowed :
    ProjectIdeaGenerator.init envOnlyGroq =
      Except.error "Missing required API keys in .env file" ∧
    ∀ (c c2 : Collaborators) (ui : MainInput),
      main envOnlyGroq c ui = main envOnlyGroq c2 ui ∧
      (main envOnlyGroq c ui).errors = [] ∧
      (main envOnlyGroq c ui).rendered = none := by
  refine ⟨rfl, ?_⟩
  intro c c2 ui
  exact ⟨rfl, rfl, rfl⟩

/-- Claim C8, counterexample: the default selectbox choice (index 1)
yields the themed label the code offers, which is not one of the
claimed labels Beginner, Intermediate, Advanced. -/
theorem complexity_label_counterexample :
    (buildRequest "AI" 5 ⟨1, by decide⟩).complexity = "Intermediate Sync" ∧
    (buildRequest "AI" 5 ⟨1, by decide⟩).complexity ∉
      ["Beginner", "Intermediate", "Advanced"] ∧
    (buildRequest "AI" 5 ⟨1, by decide⟩).complexity ∈ complexity_options ∧
    (buildRequest "AI" 5 ⟨1, by decide⟩).count = 5 := by
  decide

/-- Claim C8 (amended): every request constructed from a user
submission has its complexity equal to one of the three labels the code
offers, and its count is an integer in [1, 10]. -/
theorem request_construction_invariant (topic : String) (v : Nat)
    (i : Fin complexity_options.length) :
    (buildRequest topic v i).complexity ∈ complexity_options ∧
    1 ≤ (buildRequest topic v i).count ∧ (buildRequest topic v i).count ≤ 10 := by
  refine ⟨List.get_mem _ _ _, ?_, ?_⟩
  · show 1 ≤ slider 1 10 v
    unfold slider
    omega
  · show slider 1 10 v ≤ 10
    unfold slider
    omega

/-- Claim C9: under the modelled cache, two context fetches for the
same topic within the one-hour window return an identical
ResearchContext; the papers path is independent of any key material;
and storing one topic leaves every other exact topic key untouched
(exact match, no normalization). -/
theorem context_cache_within_window
    (search : Nat → String → String → Except String String)
    (http : Nat → String → HttpResult) (serpapi_key : String)
    (cw : CacheState (String × String) (String × List String))
    (cp : CacheState String (String × List String))
    (topic : String) (t0 t1 : Nat)
    (hw : cw.lookup 3600 (topic, serpapi_key) t0 = none)
    (hp : cp.lookup 3600 topic t0 = none)
    (h01 : t0 ≤ t1) (hwin : t1 ≤ t0 + 3600) :
    (fetchContext search http serpapi_key
        (fetchContext search http serpapi_key cw cp topic t0).2.1
        (fetchContext search http serpapi_key cw cp topic t0).2.2
        topic t1).1 =
      (fetchContext search http serpapi_key cw cp topic t0).1 ∧
    (∀ key2 cw2,
      (fetchContext search http key2 cw2 cp topic t0).1.papers =
        (fetchContext search http serpapi_key cw cp topic t0).1.papers) ∧
    (∀ topic2, topic2 ≠ topic → ∀ t,
      ((fetchContext search http serpapi_key cw cp topic t0).2.2).lookup 3600 topic2 t =
        cp.lookup 3600 topic2 t) := by
  refine ⟨?_, ?_, ?_⟩
  · have hwv := cachedCall_within_window 3600
      (fun k t => fetch_related_info (search t) k.1 k.2) cw (topic, serpapi_key) t0 t1 hw hwin
    have hpv := cachedCall_within_window 3600
      (fun k t => fetch_paperswithcode_data (http t) k) cp topic t0 t1 hp hwin
    simp only [fetchContext]
    rw [hwv, hpv]
  · intro key2 cw2
    rfl
  · intro topic2 hne t
    exact cachedCall_other_key 3600 _ cp topic topic2 t0 t hp hne

/-- A search oracle whose answer changes with time. -/
def searchClock : Nat → String → String → Except String String :=
  fun t _ _ => Except.ok (Nat.repr t)

/-- An HTTP oracle whose answer changes with time. -/
def httpClock : Nat → String → HttpResult :=
  fun t _ => HttpResult.failure (Nat.repr t)

/-- Claim C9, witness: concrete cold caches, time-varying services, a
first fetch at time 0 and a second at time 3600 for the same topic
return the identical context, and the entry for topic AI does not
answer for the differently-cased topic ai. -/
theorem context_cache_within_window_witness :
    ((CacheState.mk [] : CacheState (String × String) (String × List String)).lookup
        3600 ("AI", "sk") 0 = none ∧
      (CacheState.mk [] : CacheState String (String × List String)).lookup
        3600 "AI" 0 = none ∧
      (0 : Nat) ≤ 3600 ∧ (3600 : Nat) ≤ 0 + 3600 ∧ ("ai" : String) ≠ "AI") ∧
    (fetchContext searchClock httpClock "sk"
        (fetchContext searchClock httpClock "sk" ⟨[]⟩ ⟨[]⟩ "AI" 0).2.1
        (fetchContext searchClock httpClock "sk" ⟨[]⟩ ⟨[]⟩ "AI" 0).2.2
        "AI" 3600).1 =
      (fetchContext searchClock httpClock "sk" ⟨[]⟩ ⟨[]⟩ "AI" 0).1 ∧
    ((fetchContext searchClock httpClock "sk" ⟨[]⟩ ⟨[]⟩ "AI" 0).2.2).lookup 3600 "ai" 5 =
      (CacheState.mk [] : CacheState String (String × List String)).lookup 3600 "ai" 5 := by
  have h := context_cache_within_window searchClock httpClock "sk" ⟨[]⟩ ⟨[]⟩ "AI" 0 3600
    rfl rfl (by decide) (by decide)
  exact ⟨⟨rfl, rfl, by decide, by decide, by decide⟩, h.1, h.2.2 "ai" (by decide) 5⟩

end App
